import Mathlib

/-!
Verification of the git-mirror repository against its natural-language
specification.

The development shallowly embeds the two Python entry points of the
repository:

* `src/git-mirror.py` (the mature iteration): the `App` methods
  (`run_command`, `ls_remote`, `repo_exists`, `create_remote`,
  `delete_remote`, `clone_mirror`, `add_replica`, `sync`), the
  subcommand drivers (`do_mirror`, `do_integrity`, `do_purge`),
  manifest loading (`load_manifest` with its cerberus schema) and the
  `manf` iteration.
* `main.py` (the earlier iteration): `App.set_alias_info`, the
  alias-fallback repository locator.

External effects are modelled explicitly: process execution is an
abstract stateful `CmdRunner`, the filesystem is a predicate on paths,
provider API calls (`create_repo` / `delete_repo`) are `Except`-valued
oracles, and Python exceptions are the `exc` constructor of `PyResult`.
All definitions are executable so that theorems at concrete inputs
evaluate by `rfl` / `decide`.
-/

namespace GitMirror

/-! ## Generic list-as-dict helpers (Python `dict` with insertion order) -/

/-- Lookup in an association list by key (Python `dict.get` /
`dict.__contains__` on a dict with string keys). -/
def lookupKey {β : Type} : List (String × β) → String → Option β
  | [], _ => none
  | p :: rest, k => if p.1 = k then some p.2 else lookupKey rest k

/-- `d[k] = v` on a Python dict: replaces the value in place if the key
exists (keeping its position), otherwise appends the binding. -/
def insertPair {β : Type} (m : List (String × β)) (k : String) (v : β) :
    List (String × β) :=
  if (lookupKey m k).isSome then
    m.map (fun p => if p.1 = k then (k, v) else p)
  else
    m ++ [(k, v)]

/-- `del d[k]` composed with the guarding `if k in d`: removes the key's
binding when present (a dict has at most one). -/
def eraseKey {β : Type} (m : List (String × β)) (k : String) :
    List (String × β) :=
  m.filter (fun p => decide (p.1 ≠ k))

/-! ## Python strings -/

/-- Python `s.split(sep)` for a one-character separator, on the character
list of the string.  `"".split(sep) = [""]`. -/
def splitOnChar (sep : Char) : List Char → List (List Char)
  | [] => [[]]
  | c :: rest =>
    let r := splitOnChar sep rest
    if c = sep then [] :: r
    else
      match r with
      | [] => [[c]]
      | h :: t => (c :: h) :: t

/-- Python `s.split('\n')[0]`: the characters before the first newline. -/
def firstLine (s : String) : String :=
  String.mk (s.data.takeWhile (fun c => c ≠ '\n'))

/-- Python `sub in s` on lists of characters. -/
def containsSub (sub : List Char) : List Char → Bool
  | [] => sub.isEmpty
  | c :: rest => sub.isPrefixOf (c :: rest) || containsSub sub rest

/-- Python `sub in s` substring test on strings. -/
def strContains (s sub : String) : Bool :=
  containsSub sub.data s.data

/-! ## Python exceptions -/

/-- Result of running a piece of Python code: a normal value or an
uncaught exception carrying its message. -/
inductive PyResult (α : Type) where
  | ok (a : α)
  | exc (e : String)
deriving DecidableEq

/-! ## Command runner (`App.run_command`, src/git-mirror.py lines 129-150) -/

/-- Captured output of an external command. -/
structure CmdResult where
  stdout : String
  stderr : String
deriving DecidableEq

/-- The external world that actually executes commands: given a state, an
argv list and an optional working directory, it produces captured output,
an optional error (non-zero exit status or failure to launch) and the next
world state. -/
structure CmdRunner (σ : Type) where
  run : σ → List String → Option String → (CmdResult × Option String) × σ

/-- Python `s.strip()`: whitespace removed from both ends. -/
def pyStrip (s : String) : String :=
  String.mk (((s.data.dropWhile Char.isWhitespace).reverse.dropWhile
    Char.isWhitespace).reverse)

/-- `if cwd is not None and len(cwd.strip()) == 0: cwd = "."` -/
def normCwd : Option String → Option String
  | none => none
  | some c => if pyStrip c = "" then some "." else some c

/-- `App.run_command`: in dry-run mode, log and return a synthetic success
(empty stdout/stderr, no error) without consulting the runner; otherwise
normalize `cwd` and execute. -/
def run_command {σ : Type} (dry : Bool) (R : CmdRunner σ) (s : σ)
    (argv : List String) (cwd : Option String) :
    (CmdResult × Option String) × σ :=
  if dry then ((⟨"", ""⟩, none), s)
  else R.run s argv (normCwd cwd)

/-! ## Ref maps and `App.ls_remote` (lines 159-166) -/

/-- A ref map: ref name to commit hash, as built by `ls_remote`. -/
abbrev RefMap := List (String × String)

/-- The pairs `(l[1], l[0])` for the lines of `git ls-remote` output that
split on tab into exactly two fields
(`[line.split('\t') for line in stdout.split('\n')]` filtered by
`len(l) == 2`). -/
def parseRefPairs (stdout : String) : List (String × String) :=
  (splitOnChar '\n' stdout.data).filterMap (fun line =>
    match splitOnChar '\t' line with
    | [a, b] => some (String.mk b, String.mk a)
    | _ => none)

/-- The dict comprehension `{l[1]: l[0] for l in ...}`: later pairs with
the same key overwrite earlier ones. -/
def dictOfPairs (ps : List (String × String)) : RefMap :=
  ps.foldl (fun m p => insertPair m p.1 p.2) []

/-- `App.ls_remote`: run `git ls-remote <repo>`; on error return `None`,
otherwise parse stdout into a ref map. -/
def ls_remote {σ : Type} (dry : Bool) (R : CmdRunner σ) (s : σ)
    (repo : String) : Option RefMap × σ :=
  let ((output, err), s') := run_command dry R s ["git", "ls-remote", repo] none
  match err with
  | some _ => (none, s')
  | none => (some (dictOfPairs (parseRefPairs output.stdout)), s')

/-- `App.repo_exists`: `head is not None and head.get("HEAD") != ""`.
Note `None != ""` is `True` in Python, so a reachable remote whose ref map
has no `HEAD` entry (an empty repository) counts as existing. -/
def repo_exists {σ : Type} (dry : Bool) (R : CmdRunner σ) (s : σ)
    (repo : String) : Bool × σ :=
  let (head, s') := ls_remote dry R s repo
  (match head with
   | none => false
   | some m => decide (lookupKey m "HEAD" ≠ some ""), s')

/-! ## Providers (src/provider/) and the registry (lines 168-183) -/

/-- A hosting provider: URL-matching heuristic plus create/delete calls.
The API calls are oracles; an `Except.error` models the call raising. -/
structure Provider where
  urlMatch : String → Bool
  create_repo : String → Except String String
  delete_repo : String → Except String Bool

/-- `provider.gitlab.Gitlab`: `match` is `"gitlab" in url`; the API calls
are supplied by the environment. -/
def gitlabProvider (create : String → Except String String)
    (delete : String → Except String Bool) : Provider :=
  { urlMatch := fun url => strContains url "gitlab",
    create_repo := create, delete_repo := delete }

/-- `provider.codecommit.CodeCommit`: `match` is `"codecommit" in url`. -/
def codecommitProvider (create : String → Except String String)
    (delete : String → Except String Bool) : Provider :=
  { urlMatch := fun url => strContains url "codecommit",
    create_repo := create, delete_repo := delete }

/-- `App.create_remote`: scan providers in registration order, invoke the
first whose `match` succeeds; the `try`/`except` converts both a raising
`create_repo` and the no-provider `raise` into a returned `(err, "")`. -/
def create_remote (providers : List Provider) (url : String) :
    Option String × String :=
  match providers.find? (fun p => p.urlMatch url) with
  | some p =>
    match p.create_repo url with
    | .ok remote_url => (none, remote_url)
    | .error e => (some e, "")
  | none => (some ("no provider found for url=[" ++ url ++ "]"), "")

/-- `App.delete_remote`: first matching provider's `delete_repo`; with no
match it raises, and nothing in `delete_remote` or its callers catches. -/
def delete_remote (providers : List Provider) (url : String) :
    PyResult Bool :=
  match providers.find? (fun p => p.urlMatch url) with
  | some p =>
    match p.delete_repo url with
    | .ok b => .ok b
    | .error e => .exc e
  | none => .exc ("no provider found for url=[" ++ url ++ "]")

/-- `App` configuration relevant to the model: the dry-run flag and the
providers registered at startup. -/
structure AppCfg where
  dry_run : Bool
  providers : List Provider

/-! ## RepoInfo (lines 98-106) and the mirror engine (lines 185-262, 298-325) -/

/-- Runtime per-repository state.  `manf` fills `repo_name`, `origin` and
`replicas` from the manifest entry; `do_mirror` fills the path fields.
The Python attribute `exists` is spelled `exists_`. -/
structure RepoInfo where
  repo_dir : String := ""
  repo_name : String := ""
  repo_path : String := ""
  exists_ : Bool := false
  origin : String := ""
  replicas : List (String × String) := []

/-- `os.path.join` for the relative-path shapes this program builds. -/
def pathJoin (a b : String) : String :=
  if a = "" then b
  else if a.data.getLast? = some '/' then a ++ b
  else a ++ "/" ++ b

/-- `App.clone_mirror`: `git clone --mirror <origin> <name>` in
`repo_dir`; returns whether it succeeded. -/
def clone_mirror {σ : Type} (dry : Bool) (R : CmdRunner σ) (s : σ)
    (info : RepoInfo) : Bool × σ :=
  let ((_, err), s') := run_command dry R s
    ["git", "clone", "--mirror", info.origin, info.repo_name]
    (some info.repo_dir)
  (err.isNone, s')

/-- `App.add_replica`: probe `git config --get remote.<name>.url`; if the
remote is configured, no-op when the URL is unchanged, otherwise
`git remote set-url`; if not configured, `git remote add --mirror` and
record the replica in `repo_info.replicas`.  Returns (success, updated
info) and the final world state. -/
def add_replica {σ : Type} (dry : Bool) (R : CmdRunner σ) (s : σ)
    (info : RepoInfo) (replica_name replica_url : String) :
    (Bool × RepoInfo) × σ :=
  let ((output, err), s1) := run_command dry R s
    ["git", "config", "--get", "remote." ++ replica_name ++ ".url"]
    (some info.repo_path)
  match err with
  | none =>
    let old_url := firstLine output.stdout
    if old_url = replica_url then ((true, info), s1)
    else
      let ((_, err2), s2) := run_command dry R s1
        ["git", "remote", "set-url", replica_name, replica_url]
        (some info.repo_path)
      match err2 with
      | some _ => ((false, info), s2)
      | none => ((true, info), s2)
  | some _ =>
    let ((_, err3), s3) := run_command dry R s1
      ["git", "remote", "add", "--mirror", replica_name, replica_url]
      (some info.repo_path)
    match err3 with
    | some _ => ((false, info), s3)
    | none =>
      ((true, { info with
                  replicas := insertPair info.replicas replica_name replica_url }),
       s3)

/-- The push loop of `App.sync` (lines 248-262): one `git push --mirror
<replica>` per key of `repo_info.replicas`, counting failures and never
stopping early.  Also returns the list of replica names pushed to. -/
def syncPushLoop {σ : Type} (dry : Bool) (R : CmdRunner σ)
    (info : RepoInfo) (s : σ) :
    List String → (Nat × List String) × σ
  | [] => ((0, []), s)
  | replica :: rest =>
    let ((_, err), s1) := run_command dry R s
      ["git", "push", "--mirror", replica] (some info.repo_path)
    let ((cnt, pushed), s2) := syncPushLoop dry R info s1 rest
    ((match err with
      | some _ => cnt + 1
      | none => cnt, replica :: pushed), s2)

/-- `App.sync`: `git fetch --prune origin`; on failure return error count
1 without pushing anywhere; otherwise push to every name in
`repo_info.replicas` (dict iteration = keys in insertion order). -/
def sync {σ : Type} (dry : Bool) (R : CmdRunner σ) (s : σ)
    (info : RepoInfo) : (Nat × List String) × σ :=
  let ((_, err), s1) := run_command dry R s
    ["git", "fetch", "--prune", "origin"] (some info.repo_path)
  match err with
  | some _ => ((1, []), s1)
  | none => syncPushLoop dry R info s1 (info.replicas.map Prod.fst)

/-- Per-replica outcome of the replica loop of `do_mirror`. -/
structure ReplicaStepOut where
  info : RepoInfo
  createCalls : List String
  createFailedNames : List String
  registeredNames : List String

/-- One iteration of `do_mirror`'s replica loop (lines 311-321): if the
replica's remote does not exist, call `create_remote`; on creation failure
`continue` (skipping registration); otherwise register with
`add_replica`. -/
def mirrorReplicaStep {σ : Type} (dry : Bool) (R : CmdRunner σ)
    (providers : List Provider) (s : σ) (info : RepoInfo)
    (name url : String) : ReplicaStepOut × σ :=
  let (ex, s1) := repo_exists dry R s url
  if ex then
    let ((ok, info1), s2) := add_replica dry R s1 info name url
    (⟨info1, [], [], if ok then [name] else []⟩, s2)
  else
    match create_remote providers url with
    | (some _, _) => (⟨info, [url], [name], []⟩, s1)
    | (none, _) =>
      let ((ok, info1), s2) := add_replica dry R s1 info name url
      (⟨info1, [url], [], if ok then [name] else []⟩, s2)

/-- The full replica loop of `do_mirror` over the declared replicas. -/
def mirrorReplicaLoop {σ : Type} (dry : Bool) (R : CmdRunner σ)
    (providers : List Provider) (s : σ) (info : RepoInfo) :
    List (String × String) → ReplicaStepOut × σ
  | [] => (⟨info, [], [], []⟩, s)
  | (name, url) :: rest =>
    let (o1, s1) := mirrorReplicaStep dry R providers s info name url
    let (o2, s2) := mirrorReplicaLoop dry R providers s1 o1.info rest
    (⟨o2.info, o1.createCalls ++ o2.createCalls,
      o1.createFailedNames ++ o2.createFailedNames,
      o1.registeredNames ++ o2.registeredNames⟩, s2)

/-- Observable outcome of one `do_mirror` invocation. -/
structure MirrorOutcome where
  info : RepoInfo
  createCalls : List String
  createFailedNames : List String
  registeredNames : List String
  pushedNames : List String
  syncErrCount : Nat
  cloneFailed : Bool

/-- The tail of `do_mirror` once a local mirror is present: the replica
loop followed by `App.sync`. -/
def mirrorMain {σ : Type} (dry : Bool) (R : CmdRunner σ)
    (providers : List Provider) (s : σ) (info : RepoInfo) :
    MirrorOutcome × σ :=
  let (o, s1) := mirrorReplicaLoop dry R providers s info info.replicas
  let ((errs, pushed), s2) := sync dry R s1 o.info
  (⟨o.info, o.createCalls, o.createFailedNames, o.registeredNames,
    pushed, errs, false⟩, s2)

/-- `do_mirror` (lines 298-325): resolve paths, clone if the local mirror
is absent (returning early on clone failure), then reconcile replicas and
sync.  The filesystem is the predicate `fs` (for `os.path.exists`). -/
def do_mirror {σ : Type} (dry : Bool) (R : CmdRunner σ)
    (providers : List Provider) (fs : String → Bool) (s : σ)
    (info0 : RepoInfo) (repo_dir : String) : MirrorOutcome × σ :=
  let info1 : RepoInfo :=
    { info0 with repo_dir := repo_dir,
                 repo_path := pathJoin repo_dir info0.repo_name }
  let info2 : RepoInfo := { info1 with exists_ := fs info1.repo_path }
  if info2.exists_ then
    mirrorMain dry R providers s info2
  else
    let (okClone, s1) := clone_mirror dry R s info2
    if okClone then mirrorMain dry R providers s1 info2
    else (⟨info2, [], [], [], [], 0, true⟩, s1)

/-! ## Integrity checker (`do_integrity`, lines 328-352)

`ls_remote` only consults the command runner, so for integrity we pass the
composite `ls` oracle `String → Option RefMap` directly (the value of
`fun url => (ls_remote dry R s url).1` for the ambient app). -/

/-- The fragment `x = app.ls_remote(u); if "HEAD" in x: del x["HEAD"]`.
When `ls_remote` returned `None`, the membership test itself raises
`TypeError: argument of type 'NoneType' is not iterable` — this happens
*before* the `is None` check in the source. -/
def delHead? : Option RefMap → PyResult (Option RefMap)
  | none => .exc "argument of type 'NoneType' is not iterable"
  | some m => .ok (some (eraseKey m "HEAD"))

/-- `diff = set(origin_branches.items()) ^ set(replica_branches.items())`:
symmetric difference of the (name, hash) pairs. -/
def symmDiffPairs (a b : List (String × String)) : List (String × String) :=
  a.filter (fun p => decide (p ∉ b)) ++ b.filter (fun p => decide (p ∉ a))

/-- The (name, hash) drift reported for one replica: symmetric difference
after removing `HEAD` from both raw maps. -/
def integrityDiff (o r : RefMap) : List (String × String) :=
  symmDiffPairs (eraseKey o "HEAD") (eraseKey r "HEAD")

/-- Events logged by `do_integrity`. -/
inductive IntEvent where
  | repoError (name : String)
  | replicaUnreachable (name : String)
  | drift (name : String) (diff : List (String × String))
  | inSync (name : String)
deriving DecidableEq

/-- Lines 346-350 for one replica whose maps (already HEAD-stripped) are
`o` and `r`: error event with the diff when non-empty, info otherwise. -/
def replicaCheckEvent (name : String) (o r : RefMap) : IntEvent :=
  let diff := symmDiffPairs o r
  if diff.length > 0 then .drift name diff else .inSync name

/-- The replica loop of `do_integrity` with the origin map already
HEAD-stripped.  An unreachable replica raises inside `delHead?` (the dead
`is None` branch is kept for faithfulness). -/
def integrityLoop (ls : String → Option RefMap) (o : RefMap) :
    List (String × String) → PyResult (List IntEvent)
  | [] => .ok []
  | (name, url) :: rest =>
    match delHead? (ls url) with
    | .exc e => .exc e
    | .ok none => .ok [.replicaUnreachable name]
    | .ok (some r) =>
      let ev := replicaCheckEvent name o r
      match integrityLoop ls o rest with
      | .exc e => .exc e
      | .ok evs => .ok (ev :: evs)

/-- `do_integrity`: list the origin's refs (raising a `TypeError` when the
origin is unreachable, since `"HEAD" in None` runs before the `is None`
check), then compare each replica. -/
def do_integrity (ls : String → Option RefMap) (info : RepoInfo) :
    PyResult (List IntEvent) :=
  match delHead? (ls info.origin) with
  | .exc e => .exc e
  | .ok none => .ok [.repoError info.repo_name]
  | .ok (some o) => integrityLoop ls o info.replicas

/-- `manf` driving `do_integrity` over the selected repositories, together
with the `try`/`except` in `__main__`: an uncaught exception stops the
whole run (no later repository is processed) and surfaces as the final
`logger.error(err)`. -/
def manfIntegrity (ls : String → Option RefMap) :
    List RepoInfo → List (String × List IntEvent) × Option String
  | [] => ([], none)
  | info :: rest =>
    match do_integrity ls info with
    | .exc e => ([], some e)
    | .ok evs =>
      let (others, exc2) := manfIntegrity ls rest
      ((info.repo_name, evs) :: others, exc2)

/-! ## Purge (`do_purge`, lines 355-362) -/

/-- The loop of `do_purge`: for every replica whose name equals the
requested target, invoke `delete_remote` on its URL.  Returns the list of
URLs on which `delete_remote` was invoked, and the uncaught exception if
one was raised.  Note that nothing here consults `app.dry_run`. -/
def purgeLoop (app : AppCfg) (target : String) :
    List (String × String) → List String × Option String
  | [] => ([], none)
  | (t, url) :: rest =>
    if t = target then
      match delete_remote app.providers url with
      | .exc e => ([url], some e)
      | .ok _ =>
        let (calls, exc2) := purgeLoop app target rest
        (url :: calls, exc2)
    else purgeLoop app target rest

/-- `do_purge`: purge the replicas of one repository. -/
def do_purge (app : AppCfg) (info : RepoInfo) (target : String) :
    List String × Option String :=
  purgeLoop app target info.replicas

/-- `manf` driving `do_purge`, with the `__main__` `try`/`except`: an
uncaught exception (e.g. `delete_remote`'s no-provider raise) aborts the
run, so later repositories are not processed. -/
def manfPurge (app : AppCfg) (target : String) :
    List RepoInfo → List (String × List String) × Option String
  | [] => ([], none)
  | info :: rest =>
    let (calls, exc1) := do_purge app info target
    match exc1 with
    | some e => ([(info.repo_name, calls)], some e)
    | none =>
      let (others, exc2) := manfPurge app target rest
      ((info.repo_name, calls) :: others, exc2)

/-! ## Manifest model and validator (`load_manifest`, lines 19-48, 265-295) -/

/-- JSON values, the result of `json.load`. -/
inductive J where
  | null
  | jbool (b : Bool)
  | jnum (n : Int)
  | jstr (s : String)
  | jarr (l : List J)
  | jobj (l : List (String × J))

/-- The guid pattern of `repo_schema`, `[a-z][-_\w]*` (cerberus anchors
the regex at both ends): a lowercase letter followed by word characters or
hyphens. -/
def guidRegexOk (s : String) : Bool :=
  match s.data with
  | [] => false
  | c :: rest =>
    ('a' ≤ c && c ≤ 'z') &&
    rest.all (fun d => d = '-' || d = '_' || d.isAlphanum)

/-- The replica-name pattern `[a-z]+` (anchored): one or more lowercase
letters. -/
def replicaKeyRegexOk (s : String) : Bool :=
  !s.data.isEmpty && s.data.all (fun c => 'a' ≤ c && c ≤ 'z')

/-- The keys `repo_schema` declares (cerberus rejects unknown fields by
default). -/
def schemaKeys : List String :=
  ["guid", "origin", "description", "skip", "replicas"]

/-- The `keysrules`/`valuesrules` check for one replicas binding: a
pattern-matching string key and a string value. -/
def replicaPairOk (p : String × J) : Bool :=
  replicaKeyRegexOk p.1 &&
  (match p.2 with
   | J.jstr _ => true
   | _ => false)

/-- `cerberus.Validator().validate(repo, repo_schema)` on a dict entry:
`guid` required string matching its pattern, `origin` required string,
`description` optional string, `skip` boolean if present, `replicas` a
dict from pattern-matching string keys to string values if present, and
no unknown fields. -/
def validateRepo (fields : List (String × J)) : Bool :=
  fields.all (fun p => schemaKeys.contains p.1) &&
  (match lookupKey fields "guid" with
   | some (J.jstr s) => guidRegexOk s
   | _ => false) &&
  (match lookupKey fields "origin" with
   | some (J.jstr _) => true
   | _ => false) &&
  (match lookupKey fields "description" with
   | none => true
   | some (J.jstr _) => true
   | _ => false) &&
  (match lookupKey fields "skip" with
   | none => true
   | some (J.jbool _) => true
   | _ => false) &&
  (match lookupKey fields "replicas" with
   | none => true
   | some (J.jobj reps) => reps.all replicaPairOk
   | _ => false)

/-- Whether one root-list entry passes validation (cerberus raises a
`DocumentError` on a non-dict document). -/
def entryValid : J → Bool
  | J.jobj fields => validateRepo fields
  | _ => false

/-- The validation loop of `load_manifest`: the first invalid entry stops
with an error; a non-dict entry raises inside cerberus. -/
def validateAll : List J → PyResult (Option String)
  | [] => .ok none
  | e :: rest =>
    match e with
    | J.jobj fields =>
      if validateRepo fields then validateAll rest
      else .ok (some "manifest failed schema validation")
    | _ => .exc "document is not a dictionary"

/-- `load_manifest`: parse (`none` models an unreadable or unparseable
file, returned as an error), require the root to be a list, validate every
entry before returning the list.  The result mirrors the Python
`(repos, err)` pair, with `PyResult` for the uncaught cerberus raise. -/
def load_manifest (content : Option J) :
    PyResult (Option (List J) × Option String) :=
  match content with
  | none => .ok (none, some "cannot read or parse the manifest file")
  | some (J.jarr repos) =>
    match validateAll repos with
    | .exc e => .exc e
    | .ok (some err) => .ok (none, some err)
    | .ok none => .ok (some repos, none)
  | some _ => .ok (none, some "expected a list of repo definitions")

/-- Python truthiness, for `repo.get("skip")`. -/
def jTruthy : J → Bool
  | J.null => false
  | J.jbool b => b
  | J.jnum n => decide (n ≠ 0)
  | J.jstr s => decide (s ≠ "")
  | J.jarr l => !l.isEmpty
  | J.jobj l => !l.isEmpty

/-- The selection made by `manf` (lines 284-295): entries whose `skip`
field is truthy are excluded from processing. -/
def manfSelect (repos : List J) : List J :=
  repos.filter (fun r =>
    match r with
    | J.jobj fields =>
      match lookupKey fields "skip" with
      | some v => !jTruthy v
      | none => true
    | _ => true)

/-- The repositories actually processed by a run with the given manifest
content: none at all unless `load_manifest` returned a repo list with no
error (`__main__` exits on a load error before calling `manf`). -/
def processedRepos (content : Option J) : List J :=
  match load_manifest content with
  | .ok (some repos, none) => manfSelect repos
  | _ => []

/-! ## Repository locator (`App.set_alias_info`, main.py lines 130-148) -/

/-- Runtime repository state of the earlier iteration (main.py), which
additionally tracks aliases.  The Python attributes `exists` and
`is_alias` are spelled `exists_` and `isAlias`. -/
structure AliasInfo where
  repo_dir : String := ""
  repo_name : String := ""
  repo_path : String := ""
  exists_ : Bool := false
  isAlias : Bool := false
  origin : String := ""
  replicas : List (String × String) := []
  aliases : List String := []

/-- The alias fallback loop of `set_alias_info`: the first alias whose
directory exists under `repo_dir` wins. -/
def aliasLoop (fs : String → Bool) (repo_dir : String) (info : AliasInfo) :
    List String → AliasInfo
  | [] => info
  | name :: rest =>
    let repo_path := pathJoin repo_dir name
    if fs repo_path then
      { info with repo_name := name, repo_path := repo_path,
                  isAlias := true, exists_ := true }
    else aliasLoop fs repo_dir info rest

/-- `App.set_alias_info`: resolve the primary path first; when it is
absent, fall back to the aliases in declared order. -/
def set_alias_info (fs : String → Bool) (repo_dir : String)
    (info0 : AliasInfo) : AliasInfo :=
  let info : AliasInfo :=
    { info0 with repo_dir := repo_dir,
                 repo_path := pathJoin repo_dir info0.repo_name,
                 exists_ := fs (pathJoin repo_dir info0.repo_name),
                 isAlias := false }
  if info.exists_ then info
  else aliasLoop fs repo_dir info info.aliases

/-! ## A git-semantics command runner, for replica registration

The state is the remote configuration of the one local mirror being
operated on: a map from remote name to configured URL.  The three git
commands `add_replica` issues are given their real semantics:
`git config --get remote.<n>.url` prints the URL (with a trailing
newline) and exits 0 iff the remote is configured; `git remote set-url`
rewrites the URL of an existing remote; `git remote add` refuses to add a
remote name that already exists. -/

/-- Remote configuration of a local git repository. -/
abbrev GitCfg := List (String × String)

/-- `git remote set-url` semantics on the configuration map. -/
def updatePair (m : GitCfg) (k v : String) : GitCfg :=
  m.map (fun p => if p.1 = k then (k, v) else p)

/-- The command runner backed by real git remote-configuration
semantics. -/
def gitRunner : CmdRunner GitCfg where
  run := fun cfg argv _ =>
    match argv with
    | ["git", "config", "--get", key] =>
      match cfg.find? (fun p => key == "remote." ++ p.1 ++ ".url") with
      | some p => ((⟨p.2 ++ "\n", ""⟩, none), cfg)
      | none => ((⟨"", ""⟩, some "[git] command exited with status 1"), cfg)
    | ["git", "remote", "set-url", name, url] =>
      if (lookupKey cfg name).isSome then ((⟨"", ""⟩, none), updatePair cfg name url)
      else ((⟨"", ""⟩, some "[git] command exited with status 2"), cfg)
    | ["git", "remote", "add", "--mirror", name, url] =>
      if (lookupKey cfg name).isSome then
        ((⟨"", ""⟩, some "[git] command exited with status 3"), cfg)
      else ((⟨"", ""⟩, none), cfg ++ [(name, url)])
    | _ => ((⟨"", ""⟩, some "[git] unsupported command"), cfg)

/-! ## Concrete fixtures for evaluated theorems -/

/-- A world for a mirror run: every `git ls-remote` fails (the replica's
remote is unreachable), `git fetch --prune origin` succeeds, and every
other command (in particular `git push --mirror`) fails. -/
def mirrorTestRunner : CmdRunner Unit where
  run := fun s argv _ =>
    match argv with
    | ["git", "ls-remote", _] =>
      ((⟨"", ""⟩, some "[git] command exited with status 128"), s)
    | ["git", "fetch", "--prune", "origin"] => ((⟨"", ""⟩, none), s)
    | _ => ((⟨"", ""⟩, some "[git] command exited with status 1"), s)

/-- A repository manifest entry with a single replica `gl` whose remote
does not exist and whose URL no provider matches. -/
def replicaFailInfo : RepoInfo :=
  { repo_name := "demo",
    origin := "https://origin.example/demo.git",
    replicas := [("gl", "https://example.com/gl.git")] }

/-- An `ls_remote` oracle under which the origin of repository `a` is
unreachable and every other remote is reachable. -/
def lsUnreachableOriginA : String → Option RefMap := fun url =>
  if url = "https://origin.example/a.git" then none
  else some [("HEAD", "1111111111111111111111111111111111111111"),
             ("refs/heads/main", "1111111111111111111111111111111111111111")]

/-- Integrity fixture: repository `a`, whose origin is unreachable. -/
def intInfoA : RepoInfo :=
  { repo_name := "a",
    origin := "https://origin.example/a.git",
    replicas := [("gl", "https://gitlab.com/g/a.git")] }

/-- Integrity fixture: repository `b`, fully reachable, declared after
`a` in the manifest. -/
def intInfoB : RepoInfo :=
  { repo_name := "b",
    origin := "https://origin.example/b.git",
    replicas := [("gl", "https://gitlab.com/g/b.git")] }

/-- A provider registry with only the GitLab provider, whose API calls
always succeed. -/
def gitlabOnlyProviders : List Provider :=
  [gitlabProvider (fun _ => .ok "git@gitlab.com:ns/created.git")
                  (fun _ => .ok true)]

/-- Purge fixture: one repository with a `gitlab` replica. -/
def purgeInfo : RepoInfo :=
  { repo_name := "x",
    origin := "https://origin.example/x.git",
    replicas := [("gitlab", "https://gitlab.com/ns/x.git")] }

/-- Purge fixture for the no-provider case: repository `r1` has an `aws`
replica whose URL no registered provider matches. -/
def purgeNoProvInfo1 : RepoInfo :=
  { repo_name := "r1",
    origin := "https://origin.example/r1.git",
    replicas := [("aws", "https://example.com/r1.git")] }

/-- Purge fixture: repository `r2`, declared after `r1`. -/
def purgeNoProvInfo2 : RepoInfo :=
  { repo_name := "r2",
    origin := "https://origin.example/r2.git",
    replicas := [("aws", "https://example.com/r2.git")] }

end GitMirror

namespace GitMirror

/-! ## Dry-run behaviour of the App primitives -/

/-- In dry-run mode `ls_remote` parses the synthetic empty stdout into an
empty ref map for every URL and every runner, leaving the state alone. -/
theorem ls_remote_dry {σ : Type} (R : CmdRunner σ) (s : σ) (url : String) :
    ls_remote true R s url = (some [], s) := rfl

/-- In dry-run mode `repo_exists` is true for every URL. -/
theorem repo_exists_dry {σ : Type} (R : CmdRunner σ) (s : σ) (url : String) :
    repo_exists true R s url = (true, s) := rfl

/-- In dry-run mode `clone_mirror` reports success without running git. -/
theorem clone_mirror_dry {σ : Type} (R : CmdRunner σ) (s : σ)
    (info : RepoInfo) : clone_mirror true R s info = (true, s) := rfl

/-- In dry-run mode `add_replica` reports success and changes nothing:
the synthetic `git config --get` success yields `old_url = ""`, and both
the equal-URL branch and the `set-url` branch return `True`. -/
theorem add_replica_dry {σ : Type} (R : CmdRunner σ) (s : σ)
    (info : RepoInfo) (name url : String) :
    add_replica true R s info name url = ((true, info), s) := by
  unfold add_replica run_command
  by_cases h : firstLine "" = url <;> simp [h]

/-- In dry-run mode one replica step registers the replica and makes no
provider-creation call. -/
theorem mirrorReplicaStep_dry {σ : Type} (R : CmdRunner σ)
    (providers : List Provider) (s : σ) (info : RepoInfo)
    (name url : String) :
    mirrorReplicaStep true R providers s info name url =
      (⟨info, [], [], [name]⟩, s) := by
  unfold mirrorReplicaStep
  rw [repo_exists_dry]
  simp [add_replica_dry]

/-- In dry-run mode the replica loop registers every declared replica and
performs no creation calls. -/
theorem mirrorReplicaLoop_dry {σ : Type} (R : CmdRunner σ)
    (providers : List Provider) (s : σ) (info : RepoInfo)
    (l : List (String × String)) :
    mirrorReplicaLoop true R providers s info l =
      (⟨info, [], [], l.map Prod.fst⟩, s) := by
  induction l generalizing s info with
  | nil => rfl
  | cons p rest ih =>
    rcases p with ⟨name, url⟩
    simp [mirrorReplicaLoop, mirrorReplicaStep_dry, ih]

/-- In dry-run mode every push is a synthetic success. -/
theorem syncPushLoop_dry {σ : Type} (R : CmdRunner σ) (info : RepoInfo)
    (s : σ) (l : List String) :
    syncPushLoop true R info s l = ((0, l), s) := by
  induction l generalizing s with
  | nil => rfl
  | cons r rest ih => simp [syncPushLoop, run_command, ih]

/-! ## Ref-map and symmetric-difference lemmas -/

/-- Membership after deleting a key. -/
theorem mem_eraseKey {β : Type} (m : List (String × β)) (k : String)
    (p : String × β) : p ∈ eraseKey m k ↔ p ∈ m ∧ p.1 ≠ k := by
  simp [eraseKey, List.mem_filter]

/-- Membership in the symmetric difference of two pair lists. -/
theorem mem_symmDiffPairs (a b : List (String × String))
    (p : String × String) :
    p ∈ symmDiffPairs a b ↔ (p ∈ a ∧ p ∉ b) ∨ (p ∈ b ∧ p ∉ a) := by
  simp [symmDiffPairs, List.mem_filter, List.mem_append]

/-- The symmetric difference of a list with itself is empty. -/
theorem symmDiffPairs_self (a : List (String × String)) :
    symmDiffPairs a a = [] := by
  have h : a.filter (fun p => decide (p ∉ a)) = [] := by
    rw [List.filter_eq_nil_iff]
    intro p hp
    simp [hp]
  simp [symmDiffPairs, h]

/-- In a map with no duplicate keys, a key determines its value. -/
theorem keyUnique {β : Type} {m : List (String × β)} {n : String} {a b : β}
    (hnd : (m.map Prod.fst).Nodup) (ha : (n, a) ∈ m) (hb : (n, b) ∈ m) :
    a = b := by
  induction m with
  | nil => cases ha
  | cons p rest ih =>
    rw [List.map_cons, List.nodup_cons] at hnd
    rcases hnd with ⟨hp, hrest⟩
    rcases List.mem_cons.mp ha with ha1 | ha2 <;>
      rcases List.mem_cons.mp hb with hb1 | hb2
    · have hab : (n, a) = (n, b) := ha1.trans hb1.symm
      exact congrArg Prod.snd hab
    · exfalso
      apply hp
      have hn : p.1 = n := by rw [← ha1]
      rw [hn]
      exact List.mem_map_of_mem Prod.fst hb2
    · exfalso
      apply hp
      have hn : p.1 = n := by rw [← hb1]
      rw [hn]
      exact List.mem_map_of_mem Prod.fst ha2
    · exact ih hrest ha2 hb2

/-! ## Manifest-validation lemmas -/

/-- `List.all` is false as soon as one member fails the predicate. -/
theorem all_false_of_mem {α : Type} {pred : α → Bool} {l : List α} {x : α}
    (hx : x ∈ l) (hpx : pred x = false) : l.all pred = false := by
  induction l with
  | nil => cases hx
  | cons a t ih =>
    rcases List.mem_cons.mp hx with h1 | h2
    · subst h1
      simp [List.all_cons, hpx]
    · rw [List.all_cons, ih h2, Bool.and_false]

/-- The validation loop never reports a clean manifest containing an
invalid entry. -/
theorem validateAll_not_clean {repos : List J} {e : J} (he : e ∈ repos)
    (hbad : entryValid e = false) : validateAll repos ≠ PyResult.ok none := by
  induction repos with
  | nil => cases he
  | cons a rest ih =>
    rcases List.mem_cons.mp he with h1 | h2
    · subst h1
      cases e <;> simp_all [validateAll, entryValid]
    · cases a with
      | jobj fields =>
        by_cases hv : validateRepo fields <;> simp [validateAll, hv]
        exact ih h2
      | null => simp [validateAll]
      | jbool b => simp [validateAll]
      | jnum n => simp [validateAll]
      | jstr s => simp [validateAll]
      | jarr l => simp [validateAll]

/-- A run over a list-rooted manifest processes either the non-skipped
entries (when validation is clean) or nothing at all. -/
theorem processedRepos_arr (repos : List J) :
    processedRepos (some (J.jarr repos)) = manfSelect repos ∨
    processedRepos (some (J.jarr repos)) = [] := by
  unfold processedRepos load_manifest
  cases hv : validateAll repos with
  | exc e =>
    right
    simp [hv]
  | ok o =>
    cases o with
    | some err =>
      right
      simp [hv]
    | none =>
      left
      simp [hv]

/-- A manifest list with an invalid entry loads with an error (or raises)
and nothing is processed. -/
theorem load_bad_entry {repos : List J} {e : J} (he : e ∈ repos)
    (hbad : entryValid e = false) :
    processedRepos (some (J.jarr repos)) = [] ∧
    ∀ l : List J,
      load_manifest (some (J.jarr repos)) ≠ PyResult.ok (some l, none) := by
  have hva := validateAll_not_clean he hbad
  unfold processedRepos load_manifest
  cases hv : validateAll repos with
  | exc e2 => simp [hv]
  | ok o =>
    cases o with
    | some err => simp [hv]
    | none => exact absurd hv hva

/-! ## Alias-resolution lemmas -/

/-- When no alias directory exists the fallback loop changes nothing. -/
theorem aliasLoop_all_absent (fs : String → Bool) (rd : String)
    (info : AliasInfo) (l : List String)
    (h : ∀ a ∈ l, fs (pathJoin rd a) = false) :
    aliasLoop fs rd info l = info := by
  induction l with
  | nil => rfl
  | cons a t ih =>
    have ha := h a (List.mem_cons_self a t)
    simp only [aliasLoop, ha, Bool.false_eq_true, if_false]
    exact ih (fun b hb => h b (List.mem_cons_of_mem a hb))

/-- The first alias whose directory exists wins the fallback loop. -/
theorem aliasLoop_first (fs : String → Bool) (rd : String)
    (info : AliasInfo) (pre : List String) (a : String) (post : List String)
    (hpre : ∀ b ∈ pre, fs (pathJoin rd b) = false)
    (ha : fs (pathJoin rd a) = true) :
    aliasLoop fs rd info (pre ++ a :: post) =
      { info with repo_name := a, repo_path := pathJoin rd a,
                  isAlias := true, exists_ := true } := by
  induction pre with
  | nil => simp [aliasLoop, ha]
  | cons b t ih =>
    have hb := hpre b (List.mem_cons_self b t)
    simp only [List.cons_append, aliasLoop, hb, Bool.false_eq_true, if_false]
    exact ih (fun c hc => hpre c (List.mem_cons_of_mem b hc))

/-! ## Remote-configuration lemmas for the git-semantics runner -/

/-- The key `remote.<name>.url` determines the remote name. -/
theorem remoteKey_inj {a b : String}
    (h : "remote." ++ a ++ ".url" = "remote." ++ b ++ ".url") : a = b := by
  have hd := congrArg String.data h
  simp [String.data_append] at hd
  exact String.ext hd

/-- Scanning the configuration for the key `remote.<name>.url` is the
same as scanning for the remote name. -/
theorem find?_remote_key (cfg : GitCfg) (name : String) :
    cfg.find? (fun p =>
      ("remote." ++ name ++ ".url") == ("remote." ++ p.1 ++ ".url")) =
    cfg.find? (fun p => p.1 == name) := by
  induction cfg with
  | nil => rfl
  | cons q t ih =>
    by_cases h : q.1 = name
    · have h1 : (("remote." ++ name ++ ".url") ==
          ("remote." ++ q.1 ++ ".url")) = true := by
        rw [h]
        exact beq_self_eq_true _
      have h2 : (q.1 == name) = true := by
        rw [h]
        exact beq_self_eq_true _
      simp [List.find?_cons, h1, h2]
    · have h1 : (("remote." ++ name ++ ".url") ==
          ("remote." ++ q.1 ++ ".url")) = false :=
        beq_eq_false_iff_ne.mpr (fun he => h (remoteKey_inj he).symm)
      have h2 : (q.1 == name) = false := beq_eq_false_iff_ne.mpr h
      simp [List.find?_cons, h1, h2, ih]

/-- An absent key is not found by the name scan. -/
theorem find?_key_none {β : Type} {cfg : List (String × β)} {name : String}
    (h : lookupKey cfg name = none) :
    cfg.find? (fun p => p.1 == name) = none := by
  induction cfg with
  | nil => rfl
  | cons q t ih =>
    simp only [lookupKey] at h
    by_cases hq : q.1 = name
    · rw [if_pos hq] at h
      cases h
    · rw [if_neg hq] at h
      have h2 : (q.1 == name) = false := beq_eq_false_iff_ne.mpr hq
      simp only [List.find?_cons, h2]
      exact ih h

/-- A present key is found by the name scan, with its first value. -/
theorem find?_key_some {β : Type} {cfg : List (String × β)} {name : String}
    {v : β} (h : lookupKey cfg name = some v) :
    cfg.find? (fun p => p.1 == name) = some (name, v) := by
  induction cfg with
  | nil => cases h
  | cons q t ih =>
    simp only [lookupKey] at h
    by_cases hq : q.1 = name
    · rw [if_pos hq] at h
      cases h
      have h2 : (q.1 == name) = true := by
        rw [hq]
        exact beq_self_eq_true _
      simp only [List.find?_cons, h2]
      have hq' : q = (name, q.2) := by
        cases q
        simp only at hq ⊢
        rw [hq]
      rw [← hq']
    · rw [if_neg hq] at h
      have h2 : (q.1 == name) = false := beq_eq_false_iff_ne.mpr hq
      simp only [List.find?_cons, h2]
      exact ih h

/-- The `git config --get remote.<name>.url` behaviour of `gitRunner` in
terms of the configuration map. -/
theorem gitRunner_config_get (cfg : GitCfg) (name : String)
    (cwd : Option String) :
    gitRunner.run cfg ["git", "config", "--get",
        "remote." ++ name ++ ".url"] cwd =
      (match lookupKey cfg name with
       | some url => ((CmdResult.mk (url ++ "\n") "", none), cfg)
       | none =>
         ((CmdResult.mk "" "",
           some "[git] command exited with status 1"), cfg)) := by
  show (match cfg.find? (fun p =>
      ("remote." ++ name ++ ".url") == ("remote." ++ p.1 ++ ".url")) with
    | some p => ((CmdResult.mk (p.2 ++ "\n") "", none), cfg)
    | none => ((CmdResult.mk "" "",
        some "[git] command exited with status 1"), cfg)) = _
  rw [find?_remote_key]
  cases h : lookupKey cfg name with
  | some url => rw [find?_key_some h]
  | none => rw [find?_key_none h]

/-- `takeWhile` passes over a block of satisfying elements. -/
theorem takeWhile_append_of_all {l m : List Char} {pred : Char → Bool}
    (h : ∀ c ∈ l, pred c = true) :
    (l ++ m).takeWhile pred = l ++ m.takeWhile pred := by
  induction l with
  | nil => rfl
  | cons c t ih =>
    have hc := h c (List.mem_cons_self c t)
    simp [List.takeWhile_cons, hc]
    exact ih (fun d hd => h d (List.mem_cons_of_mem c hd))

/-- The first line of a newline-terminated newline-free string is the
string itself — `git config --get` prints `url\n` and `add_replica`
recovers `url`. -/
theorem firstLine_append_newline (s : String)
    (h : ∀ c ∈ s.data, c ≠ '\n') : firstLine (s ++ "\n") = s := by
  unfold firstLine
  have hd : (s ++ "\n").data = s.data ++ ['\n'] := by
    simp [String.data_append]
  rw [hd, takeWhile_append_of_all (fun c hc => by simp [h c hc])]
  simp

/-- Appending a fresh binding makes it visible to lookup. -/
theorem lookupKey_append_right {β : Type} {cfg : List (String × β)}
    {name : String} (v : β) (h : lookupKey cfg name = none) :
    lookupKey (cfg ++ [(name, v)]) name = some v := by
  induction cfg with
  | nil => simp [lookupKey]
  | cons q t ih =>
    simp only [lookupKey, List.cons_append] at h ⊢
    by_cases hq : q.1 = name
    · rw [if_pos hq] at h
      cases h
    · rw [if_neg hq] at h ⊢
      exact ih h

/-- After `git remote set-url`, lookup of the remote returns the new
URL. -/
theorem lookupKey_updatePair {cfg : GitCfg} {name : String} (url : String)
    (h : (lookupKey cfg name).isSome) :
    lookupKey (updatePair cfg name url) name = some url := by
  induction cfg with
  | nil => simp [lookupKey] at h
  | cons q t ih =>
    simp only [updatePair, List.map_cons]
    by_cases hq : q.1 = name
    · simp [lookupKey, hq]
    · simp only [lookupKey, hq, if_false, if_neg]
      simp only [lookupKey, hq, if_neg, if_false] at h
      exact ih h

/-- Outside dry-run mode `run_command` defers to the runner. -/
theorem run_command_not_dry {σ : Type} (R : CmdRunner σ) (s : σ)
    (argv : List String) (cwd : Option String) :
    run_command false R s argv cwd = R.run s argv (normCwd cwd) := rfl

/-- The `git remote add --mirror` behaviour of `gitRunner`. -/
theorem gitRunner_remote_add (cfg : GitCfg) (name url : String)
    (cwd : Option String) :
    gitRunner.run cfg ["git", "remote", "add", "--mirror", name, url] cwd =
      (if (lookupKey cfg name).isSome then
        ((CmdResult.mk "" "", some "[git] command exited with status 3"), cfg)
       else ((CmdResult.mk "" "", none), cfg ++ [(name, url)])) := rfl

/-- The `git remote set-url` behaviour of `gitRunner`. -/
theorem gitRunner_set_url (cfg : GitCfg) (name url : String)
    (cwd : Option String) :
    gitRunner.run cfg ["git", "remote", "set-url", name, url] cwd =
      (if (lookupKey cfg name).isSome then
        ((CmdResult.mk "" "", none), updatePair cfg name url)
       else
        ((CmdResult.mk "" "",
          some "[git] command exited with status 2"), cfg)) := rfl

/-- Registering an unconfigured replica adds it as a mirror remote. -/
theorem add_replica_new (cfg : GitCfg) (info : RepoInfo) (name url : String)
    (h : lookupKey cfg name = none) :
    add_replica false gitRunner cfg info name url =
      ((true, { info with replicas := insertPair info.replicas name url }),
       cfg ++ [(name, url)]) := by
  unfold add_replica
  rw [run_command_not_dry, gitRunner_config_get, h]
  simp only []
  rw [run_command_not_dry, gitRunner_remote_add, h]
  simp

/-- Registering a replica already configured with the same URL is a
successful no-op. -/
theorem add_replica_same_url (cfg : GitCfg) (info : RepoInfo)
    (name url : String) (h : lookupKey cfg name = some url)
    (hn : ∀ c ∈ url.data, c ≠ '\n') :
    add_replica false gitRunner cfg info name url = ((true, info), cfg) := by
  unfold add_replica
  rw [run_command_not_dry, gitRunner_config_get, h]
  simp only []
  rw [firstLine_append_newline url hn]
  simp

/-- Registering a replica configured with a different URL updates the
URL in place. -/
theorem add_replica_update (cfg : GitCfg) (info : RepoInfo)
    (name url url' : String) (h : lookupKey cfg name = some url')
    (hn' : ∀ c ∈ url'.data, c ≠ '\n') (hne : url' ≠ url) :
    add_replica false gitRunner cfg info name url =
      ((true, info), updatePair cfg name url) := by
  unfold add_replica
  rw [run_command_not_dry, gitRunner_config_get, h]
  simp only []
  rw [firstLine_append_newline url' hn']
  rw [if_neg hne]
  rw [run_command_not_dry, gitRunner_set_url, h]
  simp

/-! ## Provider-registry lemmas -/

/-- Linear scan: the first element satisfying the predicate is found. -/
theorem find?_first {α : Type} (pred : α → Bool) (pre post : List α) (p : α)
    (hpre : ∀ q ∈ pre, pred q = false) (hp : pred p = true) :
    (pre ++ p :: post).find? pred = some p := by
  induction pre with
  | nil => simp [List.find?_cons, hp]
  | cons a t ih =>
    have ha := hpre a (List.mem_cons_self a t)
    simp only [List.cons_append, List.find?_cons, ha]
    exact ih (fun q hq => hpre q (List.mem_cons_of_mem a hq))

/-- With no matching provider, `create_remote` returns the no-provider
error for that URL (caught by its own `try`/`except`). -/
theorem create_remote_no_provider (providers : List Provider) (url : String)
    (h : ∀ q ∈ providers, q.urlMatch url = false) :
    create_remote providers url =
      (some ("no provider found for url=[" ++ url ++ "]"), "") := by
  have hf : providers.find? (fun p => p.urlMatch url) = none :=
    List.find?_eq_none.mpr (fun x hx => by simp [h x hx])
  simp [create_remote, hf]

/-- With no matching provider, `delete_remote` raises the no-provider
error (uncaught). -/
theorem delete_remote_no_provider (providers : List Provider) (url : String)
    (h : ∀ q ∈ providers, q.urlMatch url = false) :
    delete_remote providers url =
      PyResult.exc ("no provider found for url=[" ++ url ++ "]") := by
  have hf : providers.find? (fun p => p.urlMatch url) = none :=
    List.find?_eq_none.mpr (fun x hx => by simp [h x hx])
  simp [delete_remote, hf]

/-! ## Claims -/

/-- Claim C1.  The spec says a replica whose creation attempt fails is
not added to the active replica set and the push step pushes only to
successfully-registered replicas.  The code violates this: `manf`
pre-populates `repo_info.replicas` with every manifest-declared replica,
and `App.sync` iterates that map, so the replica `gl` — whose
`create_remote` failed (no provider matches its URL) and which was never
registered — is still pushed to.  Evaluation of `do_mirror` at the
failing input: the pushed set is `["gl"]` while the registered set is
empty and `gl`'s creation failed. -/
theorem C1_push_set_includes_failed_replica :
    (do_mirror false mirrorTestRunner [] (fun _ => true) () replicaFailInfo
      ".repos").1.pushedNames = ["gl"] ∧
    (do_mirror false mirrorTestRunner [] (fun _ => true) () replicaFailInfo
      ".repos").1.registeredNames = [] ∧
    (do_mirror false mirrorTestRunner [] (fun _ => true) () replicaFailInfo
      ".repos").1.createFailedNames = ["gl"] ∧
    (do_mirror false mirrorTestRunner [] (fun _ => true) () replicaFailInfo
      ".repos").1.createCalls = ["https://example.com/gl.git"] :=
  ⟨rfl, rfl, rfl, rfl⟩

/-- Claim C2.  The spec says an unreachable origin yields exactly one
repository-level error, skips that repository's integrity check, and
processing continues with the next repository.  The code instead
evaluates `"HEAD" in origin_branches` before the `is None` check, so an
unreachable origin raises `TypeError: argument of type 'NoneType' is not
iterable`; the exception propagates through `manf` to the top-level
handler, aborting the entire run — repository `b`, declared after `a`, is
never processed and no repository-level error event is emitted. -/
theorem C2_unreachable_origin_raises_and_aborts_run :
    do_integrity lsUnreachableOriginA intInfoA =
      .exc "argument of type 'NoneType' is not iterable" ∧
    manfIntegrity lsUnreachableOriginA [intInfoA, intInfoB] =
      ([], some "argument of type 'NoneType' is not iterable") :=
  ⟨rfl, rfl⟩

/-- Claim C4.  The spec says dry-run mode performs zero external
mutations including provider API calls.  The command runner indeed
short-circuits (first conjunct: for every runner, state and command,
dry-run returns a synthetic success without consulting the runner), but
`do_purge` invokes `App.delete_remote` without any dry-run guard, so a
dry run of the purge subcommand still issues the provider deletion call
for the matching replica (second conjunct: the provider-call list is
nonempty with `dry_run := true`). -/
theorem C4_dry_run_purge_still_calls_provider :
    (∀ (σ : Type) (R : CmdRunner σ) (s : σ) (argv : List String)
       (cwd : Option String),
       run_command true R s argv cwd = ((⟨"", ""⟩, none), s)) ∧
    (do_purge ⟨true, gitlabOnlyProviders⟩ purgeInfo "gitlab").1 =
      ["https://gitlab.com/ns/x.git"] := by
  constructor
  · intro σ R s argv cwd
    rfl
  · rfl

/-- Counterexample to claim C7 as stated: with only the GitLab provider
registered, a purge run over repositories `r1, r2` (each with an `aws`
replica whose URL no provider matches) stops at `r1` with the uncaught
no-provider exception; `r2` is never processed, so the run does *not*
continue to the next replica/repository. -/
theorem C7_counterexample_purge_aborts :
    manfPurge ⟨false, gitlabOnlyProviders⟩ "aws"
      [purgeNoProvInfo1, purgeNoProvInfo2] =
      ([("r1", ["https://example.com/r1.git"])],
       some "no provider found for url=[https://example.com/r1.git]") :=
  rfl

/-- Claim C10.  In dry-run mode the ref-listing query never returns the
unreachable outcome: for every runner, state and URL, `ls_remote` parses
the synthetic empty stdout into an empty ref map (never `None`), so
`repo_exists` returns true for every URL, and consequently a dry-run
`do_mirror` never performs a provider repository-creation call, whatever
the filesystem, providers and repository definition. -/
theorem C10_dry_run_ls_never_none_no_creation :
    ∀ (σ : Type) (R : CmdRunner σ) (s : σ) (url : String)
      (providers : List Provider) (fs : String → Bool) (info : RepoInfo)
      (repo_dir : String),
      ls_remote true R s url = (some [], s) ∧
      repo_exists true R s url = (true, s) ∧
      (do_mirror true R providers fs s info repo_dir).1.createCalls = [] := by
  intro σ R s url providers fs info repo_dir
  refine ⟨rfl, rfl, ?_⟩
  unfold do_mirror
  by_cases h : fs (pathJoin repo_dir info.repo_name) <;>
    simp [h, clone_mirror_dry, mirrorMain, mirrorReplicaLoop_dry, sync,
          run_command, syncPushLoop_dry]

/-- A world in which every `git ls-remote` succeeds with empty stdout:
the remote is reachable but has no commits (empty ref map). -/
def lsEmptyOkRunner : CmdRunner Unit where
  run := fun s argv _ =>
    match argv with
    | ["git", "ls-remote", _] => ((⟨"", ""⟩, none), s)
    | _ => ((⟨"", ""⟩, some "[git] command exited with status 1"), s)

/-- Claim C8.  The existence probe distinguishes reachable-but-empty from
unreachable: when `ls_remote` succeeds with the empty ref map the replica
counts as existing and the replica step of `do_mirror` performs no
repository-creation call; when `ls_remote` fails, `create_remote` is
invoked on that URL. -/
theorem C8_empty_refmap_counts_as_existing :
    ∀ (σ : Type) (R : CmdRunner σ) (s s' : σ) (providers : List Provider)
      (info : RepoInfo) (name url : String),
      (ls_remote false R s url = (some [], s') →
        repo_exists false R s url = (true, s') ∧
        (mirrorReplicaStep false R providers s info name url).1.createCalls
          = []) ∧
      (ls_remote false R s url = (none, s') →
        (mirrorReplicaStep false R providers s info name url).1.createCalls
          = [url]) := by
  intro σ R s s' providers info name url
  constructor
  · intro h
    have hex : repo_exists false R s url = (true, s') := by
      unfold repo_exists
      rw [h]
      rfl
    refine ⟨hex, ?_⟩
    unfold mirrorReplicaStep
    rw [hex]
    rcases hA : add_replica false R s' info name url with ⟨⟨ok, info1⟩, s2⟩
    simp [hA]
  · intro h
    have hex : repo_exists false R s url = (false, s') := by
      unfold repo_exists
      rw [h]
    unfold mirrorReplicaStep
    rw [hex]
    rcases hc : create_remote providers url with ⟨e, ru⟩
    cases e with
    | none =>
      rcases hA : add_replica false R s' info name url with ⟨⟨ok, info1⟩, s2⟩
      simp [hc, hA]
    | some msg => simp [hc]

/-- Witness for C8: a reachable-but-empty replica (runner `lsEmptyOkRunner`)
is treated as existing with no creation call, and an unreachable replica
(runner `mirrorTestRunner`) triggers exactly one creation call. -/
theorem C8_witness :
    (repo_exists false lsEmptyOkRunner () "https://gitlab.com/g/e.git" =
      (true, ()) ∧
     (mirrorReplicaStep false lsEmptyOkRunner [] () replicaFailInfo "gl"
       "https://gitlab.com/g/e.git").1.createCalls = []) ∧
    (mirrorReplicaStep false mirrorTestRunner [] () replicaFailInfo "gl"
      "https://example.com/gl.git").1.createCalls =
      ["https://example.com/gl.git"] :=
  ⟨(C8_empty_refmap_counts_as_existing Unit lsEmptyOkRunner () () []
      replicaFailInfo "gl" "https://gitlab.com/g/e.git").1 rfl,
   (C8_empty_refmap_counts_as_existing Unit mirrorTestRunner () () []
      replicaFailInfo "gl" "https://example.com/gl.git").2 rfl⟩

/-- Claim C3.  For reachable origin/replica ref maps the reported drift
is exactly the symmetric difference of their (name, hash) pairs after
`HEAD` is removed from both: (i) membership in `integrityDiff` is the
symmetric-difference condition on the HEAD-stripped maps; (ii) identical
maps yield the empty diff, and (iii) the replica check then emits the
in-sync (non-error) event; (iv) `HEAD` never appears in the diff; (v) a
shared ref name with differing hashes contributes both entries; (vi) and
(vii) a ref present on only one side contributes that entry. -/
theorem C3_drift_is_symmetric_difference :
    (∀ (o r : RefMap) (p : String × String),
       p ∈ integrityDiff o r ↔
         (p ∈ eraseKey o "HEAD" ∧ p ∉ eraseKey r "HEAD") ∨
         (p ∈ eraseKey r "HEAD" ∧ p ∉ eraseKey o "HEAD")) ∧
    (∀ o r : RefMap, o = r → integrityDiff o r = []) ∧
    (∀ (name : String) (o r : RefMap), o = r →
       replicaCheckEvent name (eraseKey o "HEAD") (eraseKey r "HEAD") =
         .inSync name) ∧
    (∀ (o r : RefMap) (h : String), ("HEAD", h) ∉ integrityDiff o r) ∧
    (∀ (o r : RefMap) (n h1 h2 : String),
       (o.map Prod.fst).Nodup → (r.map Prod.fst).Nodup →
       (n, h1) ∈ o → (n, h2) ∈ r → h1 ≠ h2 → n ≠ "HEAD" →
       (n, h1) ∈ integrityDiff o r ∧ (n, h2) ∈ integrityDiff o r) ∧
    (∀ (o r : RefMap) (n h : String),
       (n, h) ∈ o → n ∉ r.map Prod.fst → n ≠ "HEAD" →
       (n, h) ∈ integrityDiff o r) ∧
    (∀ (o r : RefMap) (n h : String),
       (n, h) ∈ r → n ∉ o.map Prod.fst → n ≠ "HEAD" →
       (n, h) ∈ integrityDiff o r) := by
  have hmem : ∀ (o r : RefMap) (p : String × String),
      p ∈ integrityDiff o r ↔
        (p ∈ eraseKey o "HEAD" ∧ p ∉ eraseKey r "HEAD") ∨
        (p ∈ eraseKey r "HEAD" ∧ p ∉ eraseKey o "HEAD") := by
    intro o r p
    exact mem_symmDiffPairs _ _ p
  refine ⟨hmem, ?_, ?_, ?_, ?_, ?_, ?_⟩
  · intro o r h
    subst h
    exact symmDiffPairs_self _
  · intro name o r h
    subst h
    simp [replicaCheckEvent, symmDiffPairs_self]
  · intro o r h hmemd
    rcases (hmem o r ("HEAD", h)).mp hmemd with ⟨h1, _⟩ | ⟨h1, _⟩ <;>
      exact ((mem_eraseKey _ _ _).mp h1).2 rfl
  · intro o r n h1 h2 hndo hndr ho hr hne hnh
    have h1r : (n, h1) ∉ eraseKey r "HEAD" := by
      intro hmem1
      exact hne (keyUnique hndr ((mem_eraseKey _ _ _).mp hmem1).1 hr)
    have h2o : (n, h2) ∉ eraseKey o "HEAD" := by
      intro hmem2
      exact hne (keyUnique hndo ho ((mem_eraseKey _ _ _).mp hmem2).1)
    constructor
    · exact (hmem o r (n, h1)).mpr
        (Or.inl ⟨(mem_eraseKey _ _ _).mpr ⟨ho, hnh⟩, h1r⟩)
    · exact (hmem o r (n, h2)).mpr
        (Or.inr ⟨(mem_eraseKey _ _ _).mpr ⟨hr, hnh⟩, h2o⟩)
  · intro o r n h ho hnr hnh
    refine (hmem o r (n, h)).mpr (Or.inl ⟨(mem_eraseKey _ _ _).mpr ⟨ho, hnh⟩, ?_⟩)
    intro hmem1
    exact hnr (List.mem_map_of_mem Prod.fst ((mem_eraseKey _ _ _).mp hmem1).1)
  · intro o r n h hr hno hnh
    refine (hmem o r (n, h)).mpr (Or.inr ⟨(mem_eraseKey _ _ _).mpr ⟨hr, hnh⟩, ?_⟩)
    intro hmem1
    exact hno (List.mem_map_of_mem Prod.fst ((mem_eraseKey _ _ _).mp hmem1).1)

/-- Witness for C3 at concrete maps: with origin
`HEAD, main → aa, v1 → tt` and replica `HEAD, main → bb`, the shared ref
`main` with differing hashes contributes both entries, the origin-only
tag `v1` contributes its entry, `HEAD` is absent from the diff although
present in both raw maps, and two identical maps give the empty diff with
the in-sync event. -/
theorem C3_witness :
    ("refs/heads/main", "aa") ∈ integrityDiff
        [("HEAD", "aa"), ("refs/heads/main", "aa"), ("refs/tags/v1", "tt")]
        [("HEAD", "bb"), ("refs/heads/main", "bb")] ∧
    ("refs/heads/main", "bb") ∈ integrityDiff
        [("HEAD", "aa"), ("refs/heads/main", "aa"), ("refs/tags/v1", "tt")]
        [("HEAD", "bb"), ("refs/heads/main", "bb")] ∧
    ("refs/tags/v1", "tt") ∈ integrityDiff
        [("HEAD", "aa"), ("refs/heads/main", "aa"), ("refs/tags/v1", "tt")]
        [("HEAD", "bb"), ("refs/heads/main", "bb")] ∧
    (∀ h : String, ("HEAD", h) ∉ integrityDiff
        [("HEAD", "aa"), ("refs/heads/main", "aa"), ("refs/tags/v1", "tt")]
        [("HEAD", "bb"), ("refs/heads/main", "bb")]) ∧
    integrityDiff [("HEAD", "aa"), ("refs/heads/main", "aa")]
        [("HEAD", "aa"), ("refs/heads/main", "aa")] = [] ∧
    replicaCheckEvent "gl"
        (eraseKey [("HEAD", "aa"), ("refs/heads/main", "aa")] "HEAD")
        (eraseKey [("HEAD", "aa"), ("refs/heads/main", "aa")] "HEAD") =
      .inSync "gl" := by
  have h45 := C3_drift_is_symmetric_difference.2.2.2.2.1
    [("HEAD", "aa"), ("refs/heads/main", "aa"), ("refs/tags/v1", "tt")]
    [("HEAD", "bb"), ("refs/heads/main", "bb")]
    "refs/heads/main" "aa" "bb" (by decide) (by decide) (by decide)
    (by decide) (by decide) (by decide)
  refine ⟨h45.1, h45.2, ?_, ?_, ?_, ?_⟩
  · exact C3_drift_is_symmetric_difference.2.2.2.2.2.1
      [("HEAD", "aa"), ("refs/heads/main", "aa"), ("refs/tags/v1", "tt")]
      [("HEAD", "bb"), ("refs/heads/main", "bb")]
      "refs/tags/v1" "tt" (by decide) (by decide) (by decide)
  · intro h
    exact C3_drift_is_symmetric_difference.2.2.2.1
      [("HEAD", "aa"), ("refs/heads/main", "aa"), ("refs/tags/v1", "tt")]
      [("HEAD", "bb"), ("refs/heads/main", "bb")] h
  · exact C3_drift_is_symmetric_difference.2.1
      [("HEAD", "aa"), ("refs/heads/main", "aa")]
      [("HEAD", "aa"), ("refs/heads/main", "aa")] rfl
  · exact C3_drift_is_symmetric_difference.2.2.1 "gl"
      [("HEAD", "aa"), ("refs/heads/main", "aa")]
      [("HEAD", "aa"), ("refs/heads/main", "aa")] rfl

/-- Claim C5.  Manifest loading is all-or-nothing: unparseable content, a
non-list root, or any schema-violating entry (missing `guid`/`origin`,
guid failing the identifier pattern, replicas of the wrong shape) makes
`load_manifest` return an error, and then no repository is processed; an
entry with `skip = true` passes validation but is excluded from all
downstream processing. -/
theorem C5_manifest_all_or_nothing :
    (processedRepos none = [] ∧
     ∀ l : List J, load_manifest none ≠ PyResult.ok (some l, none)) ∧
    (∀ j : J, (∀ l : List J, j ≠ J.jarr l) →
       processedRepos (some j) = [] ∧
       ∀ l : List J, load_manifest (some j) ≠ PyResult.ok (some l, none)) ∧
    (∀ (repos : List J) (e : J), e ∈ repos → entryValid e = false →
       processedRepos (some (J.jarr repos)) = [] ∧
       ∀ l : List J,
         load_manifest (some (J.jarr repos)) ≠ PyResult.ok (some l, none)) ∧
    (∀ fields : List (String × J),
       (lookupKey fields "guid" = none → validateRepo fields = false) ∧
       (lookupKey fields "origin" = none → validateRepo fields = false) ∧
       (∀ s : String, lookupKey fields "guid" = some (J.jstr s) →
          guidRegexOk s = false → validateRepo fields = false) ∧
       (∀ v : J, lookupKey fields "replicas" = some v →
          (∀ reps, v ≠ J.jobj reps) → validateRepo fields = false) ∧
       (∀ (reps : List (String × J)) (k : String) (v : J),
          lookupKey fields "replicas" = some (J.jobj reps) →
          (k, v) ∈ reps → replicaKeyRegexOk k = false →
          validateRepo fields = false) ∧
       (∀ (reps : List (String × J)) (k : String) (v : J),
          lookupKey fields "replicas" = some (J.jobj reps) →
          (k, v) ∈ reps → (∀ s : String, v ≠ J.jstr s) →
          validateRepo fields = false)) ∧
    (∀ (repos : List J) (fields : List (String × J)),
       validateRepo fields = true →
       lookupKey fields "skip" = some (J.jbool true) →
       J.jobj fields ∉ processedRepos (some (J.jarr repos))) := by
  refine ⟨⟨rfl, by intro l h; cases h⟩, ?_, ?_, ?_, ?_⟩
  · intro j hj
    cases j with
    | jarr l => exact absurd rfl (hj l)
    | null => exact ⟨rfl, by intro l h; cases h⟩
    | jbool b => exact ⟨rfl, by intro l h; cases h⟩
    | jnum n => exact ⟨rfl, by intro l h; cases h⟩
    | jstr s => exact ⟨rfl, by intro l h; cases h⟩
    | jobj o => exact ⟨rfl, by intro l h; cases h⟩
  · intro repos e he hbad
    exact load_bad_entry he hbad
  · intro fields
    refine ⟨?_, ?_, ?_, ?_, ?_, ?_⟩
    · intro h
      unfold validateRepo
      rw [h]
      simp
    · intro h
      unfold validateRepo
      rw [h]
      simp
    · intro s hs hbad
      unfold validateRepo
      rw [hs]
      simp [hbad]
    · intro v hv hne
      unfold validateRepo
      rw [hv]
      cases v with
      | jobj reps => exact absurd rfl (hne reps)
      | null => simp
      | jbool b => simp
      | jnum n => simp
      | jstr s => simp
      | jarr l => simp
    · intro reps k v h hkv hbadk
      unfold validateRepo
      rw [h]
      have hpred : replicaPairOk (k, v) = false := by
        simp [replicaPairOk, hbadk]
      simp [all_false_of_mem hkv hpred]
    · intro reps k v h hkv hne
      unfold validateRepo
      rw [h]
      have hpred : replicaPairOk (k, v) = false := by
        cases v with
        | jstr s => exact absurd rfl (hne s)
        | null => simp [replicaPairOk]
        | jbool b => simp [replicaPairOk]
        | jnum n => simp [replicaPairOk]
        | jarr l => simp [replicaPairOk]
        | jobj o => simp [replicaPairOk]
      simp [all_false_of_mem hkv hpred]
  · intro repos fields hval hskip
    have hnot : J.jobj fields ∉ manfSelect repos := by
      intro hmem
      have hpred := (List.mem_filter.mp hmem).2
      simp [hskip] at hpred
      simp [jTruthy] at hpred
    rcases processedRepos_arr repos with hpr | hpr <;> rw [hpr]
    · exact hnot
    · simp

/-- Witness for C5 at concrete manifests: a list containing an entry with
a pattern-violating guid loads with an error and nothing is processed; an
entry with no guid fails validation; and a valid entry with
`skip = true` is excluded from processing. -/
theorem C5_witness :
    (processedRepos (some (J.jarr
       [J.jobj [("guid", J.jstr "9bad"), ("origin", J.jstr "u")]])) = [] ∧
     ∀ l : List J, load_manifest (some (J.jarr
       [J.jobj [("guid", J.jstr "9bad"), ("origin", J.jstr "u")]])) ≠
         PyResult.ok (some l, none)) ∧
    validateRepo [("origin", J.jstr "u")] = false ∧
    J.jobj [("guid", J.jstr "alpha"), ("origin", J.jstr "u"),
            ("skip", J.jbool true)] ∉
      processedRepos (some (J.jarr
        [J.jobj [("guid", J.jstr "alpha"), ("origin", J.jstr "u"),
                 ("skip", J.jbool true)]])) :=
  ⟨C5_manifest_all_or_nothing.2.2.1
     [J.jobj [("guid", J.jstr "9bad"), ("origin", J.jstr "u")]]
     (J.jobj [("guid", J.jstr "9bad"), ("origin", J.jstr "u")])
     (List.mem_singleton.mpr rfl) rfl,
   (C5_manifest_all_or_nothing.2.2.2.1 [("origin", J.jstr "u")]).1 rfl,
   C5_manifest_all_or_nothing.2.2.2.2
     [J.jobj [("guid", J.jstr "alpha"), ("origin", J.jstr "u"),
              ("skip", J.jbool true)]]
     [("guid", J.jstr "alpha"), ("origin", J.jstr "u"),
      ("skip", J.jbool true)] rfl rfl⟩

/-- Claim C9.  `set_alias_info` follows the alias-fallback algorithm: if
`repoDir/name` exists the result has `exists = true`, `isAlias = false`
and the original name; otherwise the first alias (in declared order)
whose directory exists wins with `exists = true`, `isAlias = true` and
name/path set to that alias; if neither exists, `exists = false` with the
name left as the original guid. -/
theorem C9_locate_alias_fallback :
    ∀ (fs : String → Bool) (repo_dir : String) (info : AliasInfo),
      (fs (pathJoin repo_dir info.repo_name) = true →
        set_alias_info fs repo_dir info =
          { info with repo_dir := repo_dir,
                      repo_path := pathJoin repo_dir info.repo_name,
                      exists_ := true, isAlias := false }) ∧
      (∀ (pre : List String) (a : String) (post : List String),
        info.aliases = pre ++ a :: post →
        fs (pathJoin repo_dir info.repo_name) = false →
        (∀ b ∈ pre, fs (pathJoin repo_dir b) = false) →
        fs (pathJoin repo_dir a) = true →
        set_alias_info fs repo_dir info =
          { info with repo_dir := repo_dir, repo_name := a,
                      repo_path := pathJoin repo_dir a,
                      exists_ := true, isAlias := true }) ∧
      (fs (pathJoin repo_dir info.repo_name) = false →
        (∀ b ∈ info.aliases, fs (pathJoin repo_dir b) = false) →
        set_alias_info fs repo_dir info =
          { info with repo_dir := repo_dir,
                      repo_path := pathJoin repo_dir info.repo_name,
                      exists_ := false, isAlias := false }) := by
  intro fs repo_dir info
  refine ⟨?_, ?_, ?_⟩
  · intro h
    simp [set_alias_info, h]
  · intro pre a post hsplit h hpre ha
    simp only [set_alias_info, h, Bool.false_eq_true, if_false]
    rw [hsplit]
    rw [aliasLoop_first fs repo_dir _ pre a post hpre ha]
  · intro h hall
    simp only [set_alias_info, h, Bool.false_eq_true, if_false]
    rw [aliasLoop_all_absent fs repo_dir _ info.aliases hall]

/-- Witness for C9: with only `.repos/old` on disk, the guid `newname`
with aliases `older, old` resolves to the alias `old`; with the primary
directory on disk it resolves to the primary name; with nothing on disk
it reports non-existence under the original name. -/
theorem C9_witness :
    set_alias_info (fun p => p == ".repos/old") ".repos"
        { repo_name := "newname", aliases := ["older", "old"] } =
      { repo_name := "old", aliases := ["older", "old"],
        repo_dir := ".repos", repo_path := ".repos/old",
        exists_ := true, isAlias := true } ∧
    set_alias_info (fun p => p == ".repos/newname") ".repos"
        { repo_name := "newname", aliases := ["older", "old"] } =
      { repo_name := "newname", aliases := ["older", "old"],
        repo_dir := ".repos", repo_path := ".repos/newname",
        exists_ := true, isAlias := false } ∧
    set_alias_info (fun _ => false) ".repos"
        { repo_name := "newname", aliases := ["older", "old"] } =
      { repo_name := "newname", aliases := ["older", "old"],
        repo_dir := ".repos", repo_path := ".repos/newname",
        exists_ := false, isAlias := false } :=
  ⟨(C9_locate_alias_fallback (fun p => p == ".repos/old") ".repos"
      { repo_name := "newname", aliases := ["older", "old"] }).2.1
      ["older"] "old" [] rfl (by decide) (by decide) (by decide),
   (C9_locate_alias_fallback (fun p => p == ".repos/newname") ".repos"
      { repo_name := "newname", aliases := ["older", "old"] }).1
      (by decide),
   (C9_locate_alias_fallback (fun _ => false) ".repos"
      { repo_name := "newname", aliases := ["older", "old"] }).2.2
      rfl (by intro b hb; rfl)⟩

/-- Claim C6.  Against real git remote-configuration semantics
(`gitRunner`), `add_replica` is a pure upsert: an unconfigured name is
added as a mirror remote; the same name with the same URL is a successful
no-op; the same name with a different URL is updated in place; and a
second call with identical arguments leaves the configuration of the
first call unchanged (idempotence).  URLs are assumed newline-free, as
git itself guarantees for configured remotes. -/
theorem C6_add_replica_upsert_idempotent :
    ∀ (cfg : GitCfg) (info : RepoInfo) (name url : String),
      (∀ c ∈ url.data, c ≠ '\n') →
      ((lookupKey cfg name = none →
         add_replica false gitRunner cfg info name url =
           ((true,
             { info with replicas := insertPair info.replicas name url }),
            cfg ++ [(name, url)])) ∧
       (lookupKey cfg name = some url →
         add_replica false gitRunner cfg info name url =
           ((true, info), cfg)) ∧
       (∀ url' : String, lookupKey cfg name = some url' →
         (∀ c ∈ url'.data, c ≠ '\n') → url' ≠ url →
         add_replica false gitRunner cfg info name url =
           ((true, info), updatePair cfg name url)) ∧
       ((lookupKey cfg name = none ∨
         ∃ url' : String, lookupKey cfg name = some url' ∧
           ∀ c ∈ url'.data, c ≠ '\n') →
        ∀ info2 : RepoInfo,
          add_replica false gitRunner
              (add_replica false gitRunner cfg info name url).2
              info2 name url =
            ((true, info2),
             (add_replica false gitRunner cfg info name url).2))) := by
  intro cfg info name url hn
  refine ⟨fun h => add_replica_new cfg info name url h,
          fun h => add_replica_same_url cfg info name url h hn,
          fun url' h hn' hne => add_replica_update cfg info name url url' h hn' hne,
          ?_⟩
  intro hcase info2
  rcases hcase with h | ⟨url', h', hn'⟩
  · rw [add_replica_new cfg info name url h]
    exact add_replica_same_url _ info2 name url
      (lookupKey_append_right url h) hn
  · by_cases heq : url' = url
    · subst heq
      rw [add_replica_same_url cfg info name url' h' hn]
      exact add_replica_same_url cfg info2 name url' h' hn
    · rw [add_replica_update cfg info name url url' h' hn' heq]
      refine add_replica_same_url _ info2 name url ?_ hn
      exact lookupKey_updatePair url (by rw [h']; rfl)

/-- Witness for C6 at a concrete configuration: registering `gl` on an
empty configuration adds it; re-registering with the same URL changes
nothing; and after registering over an old URL, a second identical call
leaves the configuration of the first unchanged. -/
theorem C6_witness :
    add_replica false gitRunner [] { repo_name := "demo" } "gl"
        "https://gitlab.com/g/x.git" =
      ((true, { repo_name := "demo",
                replicas := [("gl", "https://gitlab.com/g/x.git")] }),
       [("gl", "https://gitlab.com/g/x.git")]) ∧
    add_replica false gitRunner [("gl", "https://gitlab.com/g/x.git")]
        { repo_name := "demo" } "gl" "https://gitlab.com/g/x.git" =
      ((true, { repo_name := "demo" }),
       [("gl", "https://gitlab.com/g/x.git")]) ∧
    add_replica false gitRunner
        (add_replica false gitRunner [("gl", "https://old.example/repo.git")]
          { repo_name := "demo" } "gl" "https://gitlab.com/g/x.git").2
        { repo_name := "demo" } "gl" "https://gitlab.com/g/x.git" =
      ((true, { repo_name := "demo" }),
       (add_replica false gitRunner [("gl", "https://old.example/repo.git")]
          { repo_name := "demo" } "gl" "https://gitlab.com/g/x.git").2) :=
  ⟨(C6_add_replica_upsert_idempotent [] { repo_name := "demo" } "gl"
      "https://gitlab.com/g/x.git" (by decide)).1 rfl,
   (C6_add_replica_upsert_idempotent [("gl", "https://gitlab.com/g/x.git")]
      { repo_name := "demo" } "gl" "https://gitlab.com/g/x.git"
      (by decide)).2.1 rfl,
   (C6_add_replica_upsert_idempotent [("gl", "https://old.example/repo.git")]
      { repo_name := "demo" } "gl" "https://gitlab.com/g/x.git"
      (by decide)).2.2.2
      (Or.inr ⟨"https://old.example/repo.git", rfl, by decide⟩)
      { repo_name := "demo" }⟩

/-- Claim C7 (amended).  The registry dispatches `create_remote` and
`delete_remote` by linear scan in registration order, invoking the first
provider whose match succeeds (part 1); with no matching provider both
fail with a no-provider error for that URL (part 2); in the mirror run a
creation failure is confined to that replica — the loop continues with
the remaining replicas (part 3); but for `delete_remote` the no-provider
error is an uncaught exception, so a purge run aborts at the first
unmatched URL instead of continuing (part 4). -/
theorem C7_registry_first_match_dispatch :
    (∀ (providers : List Provider) (url : String)
       (pre post : List Provider) (p : Provider),
       providers = pre ++ p :: post →
       (∀ q ∈ pre, q.urlMatch url = false) →
       p.urlMatch url = true →
       create_remote providers url =
         (match p.create_repo url with
          | .ok remote_url => (none, remote_url)
          | .error e => (some e, "")) ∧
       delete_remote providers url =
         (match p.delete_repo url with
          | .ok b => PyResult.ok b
          | .error e => PyResult.exc e)) ∧
    (∀ (providers : List Provider) (url : String),
       (∀ q ∈ providers, q.urlMatch url = false) →
       create_remote providers url =
         (some ("no provider found for url=[" ++ url ++ "]"), "") ∧
       delete_remote providers url =
         PyResult.exc ("no provider found for url=[" ++ url ++ "]")) ∧
    (∀ (σ : Type) (R : CmdRunner σ) (providers : List Provider) (s s1 : σ)
       (info : RepoInfo) (name url : String)
       (rest : List (String × String)),
       ls_remote false R s url = (none, s1) →
       (∀ q ∈ providers, q.urlMatch url = false) →
       mirrorReplicaLoop false R providers s info ((name, url) :: rest) =
         (⟨(mirrorReplicaLoop false R providers s1 info rest).1.info,
           url ::
             (mirrorReplicaLoop false R providers s1 info rest).1.createCalls,
           name :: (mirrorReplicaLoop false R providers s1 info
             rest).1.createFailedNames,
           (mirrorReplicaLoop false R providers s1 info
             rest).1.registeredNames⟩,
          (mirrorReplicaLoop false R providers s1 info rest).2)) ∧
    (∀ (app : AppCfg) (target : String) (info : RepoInfo) (url : String)
       (rest : List (String × String)) (infos : List RepoInfo),
       info.replicas = (target, url) :: rest →
       (∀ q ∈ app.providers, q.urlMatch url = false) →
       manfPurge app target (info :: infos) =
         ([(info.repo_name, [url])],
          some ("no provider found for url=[" ++ url ++ "]"))) := by
  refine ⟨?_, ?_, ?_, ?_⟩
  · intro providers url pre post p hsplit hpre hp
    subst hsplit
    have hf : (pre ++ p :: post).find? (fun q => q.urlMatch url) = some p :=
      find?_first _ pre post p hpre hp
    constructor
    · simp [create_remote, hf]
    · simp [delete_remote, hf]
  · intro providers url h
    exact ⟨create_remote_no_provider providers url h,
           delete_remote_no_provider providers url h⟩
  · intro σ R providers s s1 info name url rest hls hnone
    have hex : repo_exists false R s url = (false, s1) := by
      unfold repo_exists
      rw [hls]
    have hcr := create_remote_no_provider providers url hnone
    have hstep : mirrorReplicaStep false R providers s info name url =
        (⟨info, [url], [name], []⟩, s1) := by
      unfold mirrorReplicaStep
      rw [hex]
      simp [hcr]
    rcases hrest : mirrorReplicaLoop false R providers s1 info rest
      with ⟨o2, s2⟩
    simp [mirrorReplicaLoop, hstep, hrest]
  · intro app target info url rest infos hrep hnone
    have hd := delete_remote_no_provider app.providers url hnone
    simp [manfPurge, do_purge, hrep, purgeLoop, hd]

/-- Witness for C7 (amended) at concrete registries: the second-listed
CodeCommit provider is dispatched for a codecommit URL the GitLab
provider does not match; an unmatched URL yields the no-provider error
from `delete_remote`; the mirror loop still processes the list after a
no-provider replica; and a purge over an unmatched URL aborts with the
uncaught no-provider exception. -/
theorem C7_witness :
    create_remote
        [gitlabProvider (fun _ => Except.ok "git@gitlab.com:ns/created.git")
           (fun _ => Except.ok true),
         codecommitProvider
           (fun _ => Except.ok "https://codecommit.example/created")
           (fun _ => Except.ok true)]
        "https://codecommit.example/x.git" =
      (none, "https://codecommit.example/created") ∧
    delete_remote gitlabOnlyProviders "https://example.com/r1.git" =
      PyResult.exc "no provider found for url=[https://example.com/r1.git]" ∧
    mirrorReplicaLoop false mirrorTestRunner [] () replicaFailInfo
        [("gl", "https://example.com/gl.git")] =
      (⟨replicaFailInfo, ["https://example.com/gl.git"], ["gl"], []⟩, ()) ∧
    manfPurge ⟨false, gitlabOnlyProviders⟩ "aws" [purgeNoProvInfo1] =
      ([("r1", ["https://example.com/r1.git"])],
       some "no provider found for url=[https://example.com/r1.git]") :=
  ⟨(C7_registry_first_match_dispatch.1
      [gitlabProvider (fun _ => Except.ok "git@gitlab.com:ns/created.git")
         (fun _ => Except.ok true),
       codecommitProvider
         (fun _ => Except.ok "https://codecommit.example/created")
         (fun _ => Except.ok true)]
      "https://codecommit.example/x.git"
      [gitlabProvider (fun _ => Except.ok "git@gitlab.com:ns/created.git")
         (fun _ => Except.ok true)]
      []
      (codecommitProvider
         (fun _ => Except.ok "https://codecommit.example/created")
         (fun _ => Except.ok true))
      rfl
      (by
        intro q hq
        rw [List.mem_singleton.mp hq]
        rfl)
      rfl).1,
   (C7_registry_first_match_dispatch.2.1 gitlabOnlyProviders
      "https://example.com/r1.git"
      (by
        intro q hq
        rw [List.mem_singleton.mp hq]
        rfl)).2,
   C7_registry_first_match_dispatch.2.2.1 Unit mirrorTestRunner [] () ()
     replicaFailInfo "gl" "https://example.com/gl.git" [] rfl
     (by
       intro q hq
       cases hq),
   C7_registry_first_match_dispatch.2.2.2 ⟨false, gitlabOnlyProviders⟩ "aws"
     purgeNoProvInfo1 "https://example.com/r1.git" [] [] rfl
     (by
       intro q hq
       rw [List.mem_singleton.mp hq]
       rfl)⟩

end GitMirror
